import Mathlib

/-!
Verification development for the nofus-python configuration-file parser
(src/configfile.py).  Lines of text are embedded as `List Char`; the parsing
methods of the `ConfigFile` class are embedded as Lean functions over that
representation, each one translated from the corresponding Python method.
Regular-expression based methods are embedded by compiling the concrete
pattern built by the method (at the constructor's default tokens) into an
equivalent explicit scanner; the pattern that each definition embeds is
quoted in its doc comment.

Python-specific behaviour is modelled explicitly where it decides a claim:
the int-or-False return convention of `find_line_comment_position` (where
the Python comparison 0 == False is true), and the exceptions raised by
`os.is_file` (AttributeError), an undefined local name (NameError) and
`re.compile` applied to a bare backslash (re.error).
-/

/-- Whitespace recognised by the regex class \s and by str.strip (ASCII). -/
def isPySpace (c : Char) : Bool :=
  c == ' ' || c == '\t' || c == '\n' || c == '\r' || c == '\x0b' || c == '\x0c'

/-- Character class a-zA-Z0-9_\- used for both scope_char_set and
varname_char_set in the constructor (configfile.py lines 135-136). -/
def isScopeChar (c : Char) : Bool :=
  c.isAlpha || c.isDigit || c == '_' || c == '-'

/-- Drop leading Python whitespace (the regex \s* / left half of str.strip). -/
def skipWs : List Char → List Char
  | [] => []
  | c :: r => if isPySpace c then skipWs r else c :: r

/-- Python str.strip: drop leading and trailing whitespace. -/
def stripWs (l : List Char) : List Char :=
  (skipWs ((skipWs l).reverse)).reverse

/-- Test whether the second list starts with the first. -/
def startsWith : List Char → List Char → Bool
  | [], _ => true
  | _ :: _, [] => false
  | c :: cs, d :: ds => c == d && startsWith cs ds

/-- Position of the first occurrence of sub in l, if any (0-based). -/
def findSub (sub : List Char) : List Char → Option Nat
  | [] => if sub.isEmpty then some 0 else none
  | c :: r =>
    if startsWith sub (c :: r) then some 0
    else (findSub sub r).map (· + 1)

/-- Python str.find(sub, start): lowest index at or after start where sub
occurs, as an Option instead of the -1 convention. -/
def strFind (l : List Char) (sub : List Char) (start : Nat) : Option Nat :=
  (findSub sub (l.drop start)).map (· + start)

/-- Result type of find_line_comment_position: a Python value that is either
an int position or the literal False (docstring: "int|false"). -/
inductive PosResult where
  | fls : PosResult
  | pos : Nat → PosResult
deriving DecidableEq

/-- Default comment markers from the constructor:
line_comment_start = ['#', '//'] (configfile.py line 130). -/
def default_markers : List (List Char) := [['#'], ['/', '/']]

/-- Python exceptions raised by the methods of configfile.py:
attributeError for os.is_file (the os module has no such attribute, line
249), nameError for the undefined local quote_val_patterns (line 425),
reError for re.compile applied to the bare escape character (line 455), and
typeError for re.sub applied to a non-string. -/
inductive PyErr where
  | attributeError : PyErr
  | nameError : PyErr
  | reError : PyErr
  | typeError : PyErr
deriving DecidableEq

/-- Python value held by the local variable named value in
get_variable_value: a boolean, a string, or (after line 445, which reads the
attribute self.get_quoted_value without calling it) a bound method object. -/
inductive PyObj where
  | pybool : Bool → PyObj
  | pystr : List Char → PyObj
  | method : PyObj
deriving DecidableEq

namespace ConfigFile

/-- Loop body of find_line_comment_position (configfile.py lines 281-284):
start_check = line.find(comment_start, search_offset);
if start_check != -1 and (start == False or start_check < start):
    start = start_check.
In Python the comparison 0 == False is true, so a previously found marker
at position 0 passes the `start == False` test and is overwritten. -/
def flcp_step (line : List Char) (off : Nat) (start : PosResult)
    (marker : List Char) : PosResult :=
  match strFind line marker off with
  | none => start
  | some p =>
    match start with
    | PosResult.fls => PosResult.pos p
    | PosResult.pos n => if n == 0 || p < n then PosResult.pos p else PosResult.pos n

/-- Embeds find_line_comment_position (configfile.py lines 273-286):
start = False; for comment_start in self.line_comment_start: [flcp_step];
return start. -/
def find_line_comment_position (markers : List (List Char)) (line : List Char)
    (search_offset : Nat) : PosResult :=
  markers.foldl (flcp_step line search_offset) PosResult.fls

end ConfigFile

/-- Test whether a position starts a line comment: the alternation (#|//)
built from the default line_comment_start markers. -/
def startsComment (l : List Char) : Bool :=
  startsWith (['#']) l || startsWith (['/', '/']) l

/-- Tail admitted after a closing quote or closing bracket: the regex suffix
\s*(?:(#|//).*)?$ common to the patterns of has_quoted_value,
get_quoted_value, is_valid_scope_definition and set_scope. -/
def comment_tail_ok (l : List Char) : Bool :=
  match skipWs l with
  | [] => true
  | r => startsComment r

/-- Split a line at the first assignment delimiter, as forced by the regex
prefix ^[^=]+= (default var_val_delimiter): the part before the first = must
be non-empty and contains no =.  Returns (before, after) on success. -/
def delim_split (l : List Char) : Option (List Char × List Char) :=
  let pre := l.takeWhile (fun c => c != '=')
  match l.dropWhile (fun c => c != '=') with
  | '=' :: post => if pre.isEmpty then none else some (pre, post)
  | _ => none

/-- Longest prefix of characters satisfying p, and the remainder. -/
def spanClass (p : Char → Bool) : List Char → List Char × List Char
  | [] => ([], [])
  | c :: r =>
    if p c then
      ((spanClass p r).1.cons c, (spanClass p r).2)
    else ([], c :: r)

/-- Loop for the regex tail (\.[c]+)* of a dotted name: repeatedly consume a
scope delimiter followed by a non-empty run of name characters; stop (without
consuming the dot) when no name character follows the dot.  The fuel is an
upper bound on the number of loop steps (each consumes two or more chars). -/
def dottedLoop : Nat → List Char → List Char → List Char × List Char
  | 0, acc, l => (acc, l)
  | fuel + 1, acc, l =>
    match l with
    | [] => (acc, [])
    | c :: rest =>
      if c == '.' then
        match spanClass isScopeChar rest with
        | ([], _) => (acc, c :: rest)
        | (s, r) => dottedLoop fuel (acc ++ '.' :: s) r
      else (acc, c :: rest)

/-- Parse a dotted name [c]+(\.[c]+)* over the identifier character class,
returning the matched text and the remainder; none when no name character
starts the input.  This is the group of the scope patterns (configfile.py
lines 320 and 344) and the shape of a variable name. -/
def parseDottedName (l : List Char) : Option (List Char × List Char) :=
  match spanClass isScopeChar l with
  | ([], _) => none
  | (s, r) => some (dottedLoop r.length s r)

/-- Modelled from the spec: the method has_valid_variable_name is called
throughout configfile.py but is not under src/.  Per the spec (section 4.1
steps 4-6, section 6 and the constructor's varname_char_set): the line must
begin, after optional whitespace, with dot-joined non-empty segments of
identifier characters a-zA-Z0-9_-, followed, after optional whitespace, by
the assignment delimiter, a comment marker, or the end of the line. -/
def has_valid_variable_name (l : List Char) : Bool :=
  match parseDottedName (skipWs l) with
  | none => false
  | some (_, rest) =>
    match skipWs rest with
    | [] => true
    | c :: r => c == '=' || startsComment (c :: r)

namespace ConfigFile

/-- Embeds has_value_delimiter (configfile.py lines 352-367): true when the
line has a valid variable name and matches the pattern ^[^=]+= (a non-empty
run of non-delimiter characters followed by the delimiter). -/
def has_value_delimiter (l : List Char) : Bool :=
  has_valid_variable_name l && (delim_split l).isSome

/-- Scan for a closing quote as in the middle of the pattern of
has_quoted_value (configfile.py line 396), default tokens substituted:
(?:\\"|[^=])*(?<!\\)"\s*(?:(#|//).*)?$ .
The repetition (?:\\"|[^=])* matches exactly the strings whose characters
are all different from = (both alternatives only contain such characters,
and any single non-= character matches the second alternative), so the
pattern matches from a position when some later character is an unescaped
quote (negative lookbehind (?<!\\): the immediately preceding character is
not the escape character), all characters before it are different from =,
and only whitespace and/or a comment follows it.  The argument prev is the
character immediately before the scan position (initially the open quote).
Note the character class is [^=], built from the assignment delimiter, where
the analogous pattern of get_quoted_value (line 423) uses the quote class
[^"]; an = inside the quotes therefore defeats this pattern. -/
def quote_close_ok (prev : Char) : List Char → Bool
  | [] => false
  | c :: rest =>
    (c == '"' && prev != '\\' && comment_tail_ok rest) ||
    (c != '=' && quote_close_ok c rest)

/-- Embeds has_quoted_value (configfile.py lines 369-402): the line must have
a valid variable name and match
^[^=]+=\s*"(?:\\"|[^=])*(?<!\\)"\s*(?:(#|//).*)?$
(the pattern of line 396 with the default delimiter, quote, escape and
comment tokens substituted).  The prefix ^[^=]+= forces the match to use the
first = of the line; \s* and the open quote are disjoint character sets, so
the open quote is the first non-whitespace character after the delimiter. -/
def has_quoted_value (l : List Char) : Bool :=
  has_valid_variable_name l &&
  match delim_split l with
  | none => false
  | some (_, post) =>
    match skipWs post with
    | c :: tl => c == '"' && quote_close_ok c tl
    | [] => false

/-- Embeds get_quoted_value (configfile.py lines 404-429).  When the line has
a valid variable name, line 425 evaluates the name quote_val_patterns, but
the pattern local defined on line 423 is named quote_val_pattern (without the
final s); the name is undefined there, so the method raises NameError before
matching anything.  Otherwise it returns the initial empty string. -/
def get_quoted_value (l : List Char) : Except PyErr (List Char) :=
  if has_valid_variable_name l then Except.error PyErr.nameError
  else Except.ok []

/-- Modelled from the spec: the method get_post_delimiter is called by
get_variable_value (configfile.py line 447) but is not under src/.  Per the
spec (section 4.2: take the substring after the delimiter), it returns the
part of the line strictly after the first occurrence of the assignment
delimiter. -/
def get_post_delimiter (l : List Char) : List Char :=
  (l.dropWhile (fun c => c != '=')).drop 1

/-- Embeds the comment handling of the unquoted branch of get_variable_value
(configfile.py lines 449-451):
comment_start = self.find_line_comment_position(value);
if comment_start != False: value = value[0:comment_start].
In Python the comparison 0 != False is false, so a comment marker at
position 0 of the value is not stripped. -/
def cut_at_comment (v : List Char) : List Char :=
  match find_line_comment_position default_markers v 0 with
  | PosResult.fls => v
  | PosResult.pos n => if n != 0 then v.take n else v

/-- Value computed by the unquoted branch of get_variable_value
(configfile.py lines 447-452): the post-delimiter substring, cut at the
first comment marker, then stripped of surrounding whitespace. -/
def unquoted_extract (l : List Char) : List Char :=
  stripWs (cut_at_comment (get_post_delimiter l))

/-- Embeds the escape-handling block of get_variable_value (configfile.py
lines 454-458).  Line 455 evaluates re.compile(self.escape_char): the escape
character is the one-character backslash string, which is an invalid regular
expression (bad escape at end of pattern), so re.compile raises re.error.
The block therefore raises for every value that reaches it, before the
re.sub call on line 458 can run. -/
def unescape_block (_value : PyObj) : Except PyErr PyObj :=
  Except.error PyErr.reError

/-- Embeds get_variable_value (configfile.py lines 431-460):
value starts as False; a valid variable name turns it into True; when the
line has a value delimiter, the quoted branch (line 445) assigns the method
object self.get_quoted_value without calling it, and the unquoted branch
computes unquoted_extract; both branches then run the escape-handling block,
which raises re.error (see unescape_block). -/
def get_variable_value (l : List Char) : Except PyErr PyObj :=
  if has_valid_variable_name l then
    if has_value_delimiter l then
      let value : PyObj :=
        if has_quoted_value l then PyObj.method
        else PyObj.pystr (unquoted_extract l)
      unescape_block value
    else Except.ok (PyObj.pybool true)
  else Except.ok (PyObj.pybool false)

end ConfigFile

/-- Closing-quote scan following the words of claim C1 and of the spec: the
closing quote is the first quote character later on the line that is not
immediately preceded by the escape character; the value is quoted when such
a quote exists and everything after it is only whitespace and/or a comment.
Characters between the quotes are unrestricted (taken literally). -/
def spec_close_ok (prev : Char) : List Char → Bool
  | [] => false
  | c :: rest =>
    if c == '"' && prev != '\\' then comment_tail_ok rest
    else spec_close_ok c rest

/-- Quoted-value detection following the words of claim C1: after the
assignment delimiter, trim leading whitespace; the first character must be
the quote character and a matching unescaped closing quote must follow, with
only whitespace and/or a comment after it. -/
def spec_quoted (l : List Char) : Bool :=
  match delim_split l with
  | none => false
  | some (_, post) =>
    match skipWs post with
    | c :: tl => c == '"' && spec_close_ok c tl
    | [] => false

/-- Parsed-content store self.values: a Python dict mapping full variable
names to lists of values, embedded as an insertion-ordered association list
with unique keys (a new key is appended at the end, as in a Python dict). -/
abbrev Store := List (List Char × List PyObj)

/-- Python membership test name in self.values. -/
def storeMem (vs : Store) (k : List Char) : Bool :=
  vs.any (fun p => p.1 == k)

/-- Python lookup self.values[name], as an Option. -/
def storeGet (vs : Store) (k : List Char) : Option (List PyObj) :=
  (vs.find? (fun p => p.1 == k)).map (fun p => p.2)

/-- Value of one entry of the defaults dict passed to preload: a single
value or a list of values (the isinstance(value, (list, Mapping)) test on
line 222 stores lists as given and wraps anything else in a one-element
list; the Mapping case likewise stores the object as given and is not
modelled separately). -/
inductive PreVal where
  | scalar : PyObj → PreVal
  | vlist : List PyObj → PreVal

/-- Value stored by preload for one default entry (configfile.py lines
222-225): a list is stored as given, any other value is wrapped. -/
def wrapPre : PreVal → List PyObj
  | PreVal.scalar v => [v]
  | PreVal.vlist l => l

/-- Loop of preload (configfile.py lines 220-225): for each default entry,
if the key is not in self.values, store the (possibly wrapped) value; a new
dict key is appended at the end. -/
def preload_fold (vs : Store) : List (List Char × PreVal) → Store
  | [] => vs
  | (name, value) :: rest =>
    if storeMem vs name then preload_fold vs rest
    else preload_fold (vs ++ [(name, wrapPre value)]) rest

/-- State of a ConfigFile object: the fields assigned in __init__
(configfile.py lines 124-149). -/
structure ConfigFile where
  file_path : Option (List Char)
  loaded : Bool
  line_comment_start : List (List Char)
  var_val_delimiter : List Char
  scope_delimiter : List Char
  quote_char : List Char
  escape_char : List Char
  scope_char_set : List Char
  varname_char_set : List Char
  current_scope : Option (List Char)
  errors : List (List Char)
  values : Store

namespace ConfigFile

/-- Embeds __init__ (configfile.py lines 124-149).  Line 149 assigns the
local name file_path, not the attribute self.file_path, so the file_path
field keeps its initial None no matter what argument is given; the argument
is therefore unused here.  current_scope is initialised to the empty
string. -/
def init (_file_to_open : Option (List Char)) : ConfigFile :=
  { file_path := none
    loaded := false
    line_comment_start := default_markers
    var_val_delimiter := ['=']
    scope_delimiter := ['.']
    quote_char := ['"']
    escape_char := ['\\']
    scope_char_set := ("a-zA-Z0-9_\\-").toList
    varname_char_set := ("a-zA-Z0-9_\\-").toList
    current_scope := some []
    errors := []
    values := [] }

/-- Embeds preload (configfile.py lines 212-225). -/
def preload (self : ConfigFile) (defaults : List (List Char × PreVal)) :
    ConfigFile :=
  { self with values := preload_fold self.values defaults }

/-- Embeds reset (configfile.py lines 227-233): only loaded, errors and
values are assigned. -/
def reset (self : ConfigFile) : ConfigFile :=
  { self with loaded := false, errors := [], values := [] }

/-- Error message appended by load when file_path is None (line 246). -/
def noFileMsg : List Char :=
  ("Cannot load file; no file was given. (Note: you cannot load() a query result.)").toList

/-- Embeds load (configfile.py lines 235-271).  If loaded is already true,
return success immediately without touching any state (lines 240-242).  If
file_path is None, append the no-file error and return failure (lines
244-247).  Otherwise line 249 calls os.is_file, an attribute the os module
does not have, so an AttributeError is raised; the file-reading and
line-processing code of lines 253-271 is unreachable. -/
def load (self : ConfigFile) : Except PyErr (ConfigFile × Bool) :=
  if self.loaded then Except.ok (self, true)
  else
    match self.file_path with
    | none => Except.ok ({ self with errors := self.errors ++ [noFileMsg] }, false)
    | some _ => Except.error PyErr.attributeError

/-- Closing part \]\s*(?:(#|//).*)?$ of the scope patterns (configfile.py
lines 320 and 344): a closing bracket followed by an admissible tail.  The
argument g is the value captured so far for group 1. -/
def scope_close (g : Option (List Char)) : List Char → Option (Option (List Char))
  | [] => none
  | c :: rest =>
    if c == ']' then (if comment_tail_ok rest then some g else none)
    else none

/-- Match of the scope pattern
^\s*\[\s*([c]+(?:\.[c]+)*)?\s*\]\s*(?:(#|//).*)?$
of set_scope (configfile.py line 344, default tokens substituted, [c] the
scope character class), returning the value of group 1 on success: some
(some name) when the optional group participates, some none when it is
absent (Python match.group(1) is None).  The pattern of
is_valid_scope_definition (line 320) differs only in the group being
non-capturing, so it matches the same lines.  No backtracking is lost by
committing to the greedy name parse: when a name is parsed but the rest
does not match, the group-absent alternative would have to find ] where a
name character stands, and a shorter name parse would leave a name
character or a dot where whitespace or ] is required. -/
def scope_line_parse (l : List Char) : Option (Option (List Char)) :=
  match skipWs l with
  | [] => none
  | c :: r =>
    if c == '[' then
      match parseDottedName (skipWs r) with
      | some (name, rest) => scope_close (some name) (skipWs rest)
      | none => scope_close none (skipWs (skipWs r))
    else none

/-- Embeds is_valid_scope_definition (configfile.py lines 306-329): true
exactly when the scope pattern matches the line. -/
def is_valid_scope_definition (l : List Char) : Bool :=
  (scope_line_parse l).isSome

/-- Embeds set_scope (configfile.py lines 331-350): when the scope pattern
matches, current_scope is assigned match.group(1) — the captured name, or
None when the optional group is absent; otherwise nothing happens. -/
def set_scope (self : ConfigFile) (l : List Char) : ConfigFile :=
  match scope_line_parse l with
  | some g => { self with current_scope := g }
  | none => self

/-- Modelled from the spec: record is part of the Value Store and Query API
(spec section 4.4) called by the line-processing code, which is not under
src/: record(key, value) appends value to the ordered sequence for that
key, creating the entry if absent, and does not overwrite. -/
def record (vs : Store) (k : List Char) (v : PyObj) : Store :=
  if storeMem vs k then
    vs.map (fun p => if p.1 == k then (p.1, p.2 ++ [v]) else p)
  else vs ++ [(k, [v])]

/-- Modelled from the spec: get(key, default) (spec section 4.4, exercised
by tests.py but not under src/) returns the last-recorded value for an
exact key if present, else the default.  The scope-view behaviour for
prefix queries is not needed by the claims and is not modelled. -/
def get (vs : Store) (k : List Char) (default : Option PyObj) : Option PyObj :=
  match storeGet vs k with
  | some l =>
    match l.getLast? with
    | some x => some x
    | none => default
  | none => default

/-- Modelled from the spec: getArray(key) (spec section 4.4, exercised by
tests.py as get_array but not under src/) returns the full ordered sequence
of recorded values for the key, or an empty sequence if absent. -/
def get_array (vs : Store) (k : List Char) : List PyObj :=
  (storeGet vs k).getD []

end ConfigFile

/-- Shape of an empty bracket line following the words of claim C8: optional
surrounding whitespace, an empty bracket pair, and an optional trailing
comment. -/
def emptyBracketShape (l : List Char) : Bool :=
  match skipWs l with
  | c :: r =>
    c == '[' &&
    (match skipWs r with
     | c2 :: r2 => c2 == ']' && comment_tail_ok r2
     | [] => false)
  | [] => false


/-- Smallest position, over all configured markers, at which a marker occurs
at or after the offset; none when no marker occurs.  This is the behaviour
claim C2 (and the docstring of find_line_comment_position) describes. -/
def spec_comment_pos (markers : List (List Char)) (line : List Char)
    (off : Nat) : Option Nat :=
  (markers.filterMap (fun m => strFind line m off)).foldl
    (fun acc n => match acc with
      | none => some n
      | some m => some (min m n))
    none

/-- Line used to exhibit the claim C2 divergence: the marker # occurs at
position 0 and the marker // occurs at position 3. -/
def c2_line : List Char := ("#ab//cd").toList

/-- Line 46 of the module docstring of configfile.py, documented there as a
quoted value that may contain special characters: the characters between the
quotes include both the comment marker # and the assignment delimiter =. -/
def c1_line : List Char :=
  ("specials = \"This has #, \\\\, and = inside of it\"").toList

/-- Assignment line whose value is written as an open quote, the string ab
(which needs no escapes), and a closing quote; by claim C3 it should extract
back to exactly ab. -/
def c3_line : List Char := ("k = \"ab\"").toList

/-- Line from claim C4: the value starts with a quote character that is
never closed. -/
def c4_line : List Char := ("k = \"open").toList

/-- Concrete key used by the witnesses. -/
def kx : List Char := ("x").toList

/-- Second concrete key used by the witnesses. -/
def ky : List Char := ("y").toList

/-- Concrete values used by the witnesses. -/
def valA : PyObj := PyObj.pystr (("A").toList)

/-- Second concrete value used by the witnesses. -/
def valB : PyObj := PyObj.pystr (("B").toList)

/-- Concrete ConfigFile state whose store already holds key x, used by the
claim C6 witness. -/
def cfw : ConfigFile := { ConfigFile.init none with values := [(kx, [valA])] }

/-- Concrete defaults mapping used by the claim C6 witness: it offers a new
value for the already-present key x and seeds the absent key y. -/
def dW : List (List Char × PreVal) :=
  [(kx, PreVal.scalar valB), (ky, PreVal.scalar valB)]

/-- Concrete ConfigFile state with the loaded flag set, used by the claim
C10 witness. -/
def cf_loaded : ConfigFile := { ConfigFile.init none with loaded := true }

/-- Membership in a cons store. -/
theorem storeMem_cons (p : List Char × List PyObj) (t : Store) (k : List Char) :
    storeMem (p :: t) k = ((p.1 == k) || storeMem t k) := by
  simp [storeMem]

/-- Membership after appending one entry. -/
theorem storeMem_append_single (vs : Store) (e : List Char × List PyObj)
    (k : List Char) :
    storeMem (vs ++ [e]) k = (storeMem vs k || (e.1 == k)) := by
  simp [storeMem, List.any_append]

/-- Lookup ignores an appended suffix when the key is already present. -/
theorem storeGet_append_of_mem (vs l2 : Store) (k : List Char)
    (h : storeMem vs k = true) :
    storeGet (vs ++ l2) k = storeGet vs k := by
  induction vs with
  | nil => simp [storeMem] at h
  | cons p t ih =>
    rw [storeMem_cons] at h
    cases hp : (p.1 == k) with
    | true => simp [storeGet, List.find?, hp]
    | false =>
      rw [hp] at h
      simp only [Bool.false_or] at h
      have e1 : storeGet ((p :: t) ++ l2) k = storeGet (t ++ l2) k := by
        simp [storeGet, List.find?, hp]
      have e2 : storeGet (p :: t) k = storeGet t k := by
        simp [storeGet, List.find?, hp]
      rw [e1, e2]
      exact ih h

/-- Lookup passes over a prefix that does not contain the key. -/
theorem storeGet_append_of_not_mem (vs l2 : Store) (k : List Char)
    (h : storeMem vs k = false) :
    storeGet (vs ++ l2) k = storeGet l2 k := by
  induction vs with
  | nil => rfl
  | cons p t ih =>
    rw [storeMem_cons] at h
    cases hp : (p.1 == k) with
    | true => rw [hp] at h; simp at h
    | false =>
      rw [hp] at h
      simp only [Bool.false_or] at h
      have e1 : storeGet ((p :: t) ++ l2) k = storeGet (t ++ l2) k := by
        simp [storeGet, List.find?, hp]
      rw [e1]
      exact ih h

/-- Lookup of an absent key gives none. -/
theorem storeGet_of_not_mem (vs : Store) (k : List Char)
    (h : storeMem vs k = false) :
    storeGet vs k = none := by
  have e := storeGet_append_of_not_mem vs [] k h
  simpa using e

/-- Updating entries of a key that is absent changes nothing. -/
theorem map_keep_of_not_mem (vs : Store) (k : List Char) (v : PyObj)
    (h : storeMem vs k = false) :
    vs.map (fun p => if p.1 == k then (p.1, p.2 ++ [v]) else p) = vs := by
  induction vs with
  | nil => rfl
  | cons p t ih =>
    rw [storeMem_cons] at h
    cases hp : (p.1 == k) with
    | true => rw [hp] at h; simp at h
    | false =>
      rw [hp] at h
      simp only [Bool.false_or] at h
      simp only [List.map_cons, ih h]
      congr 1
      simp [hp]

/-- Preload never changes the value sequence of a key that is already
present in the store. -/
theorem preload_fold_frame (d : List (List Char × PreVal)) :
    ∀ (vs : Store) (k : List Char), storeMem vs k = true →
      storeGet (preload_fold vs d) k = storeGet vs k := by
  induction d with
  | nil => intro vs k _; rfl
  | cons e rest ih =>
    intro vs k h
    obtain ⟨name, value⟩ := e
    cases hm : storeMem vs name with
    | true => simp only [preload_fold, hm, if_true]; exact ih vs k h
    | false =>
      simp only [preload_fold, hm, Bool.false_eq_true, if_false]
      have h2 : storeMem (vs ++ [(name, wrapPre value)]) k = true := by
        rw [storeMem_append_single, h]; rfl
      rw [ih _ k h2]
      exact storeGet_append_of_mem vs _ k h

/-- Preload seeds an absent key with the wrapped value of its first
occurrence in the defaults. -/
theorem preload_fold_seed (d : List (List Char × PreVal)) :
    ∀ (vs : Store) (k : List Char) (pv : PreVal), storeMem vs k = false →
      List.lookup k d = some pv →
      storeGet (preload_fold vs d) k = some (wrapPre pv) := by
  induction d with
  | nil => intro vs k pv _ hl; simp [List.lookup] at hl
  | cons e rest ih =>
    intro vs k pv h hl
    obtain ⟨name, value⟩ := e
    cases hk : (k == name) with
    | true =>
      have hkn : k = name := eq_of_beq hk
      subst hkn
      have hv : value = pv := by simpa [List.lookup, hk] using hl
      subst hv
      simp only [preload_fold, h, Bool.false_eq_true, if_false]
      have h2 : storeMem (vs ++ [(k, wrapPre value)]) k = true := by
        rw [storeMem_append_single, h]; simp
      rw [preload_fold_frame rest _ k h2]
      rw [storeGet_append_of_not_mem vs _ k h]
      simp [storeGet, List.find?]
    | false =>
      have hl2 : List.lookup k rest = some pv := by
        simpa [List.lookup, hk] using hl
      cases hm : storeMem vs name with
      | true => simp only [preload_fold, hm, if_true]; exact ih vs k pv h hl2
      | false =>
        simp only [preload_fold, hm, Bool.false_eq_true, if_false]
        apply ih _ k pv _ hl2
        rw [storeMem_append_single, h]
        have hnk : (name == k) = false := by
          cases hx : (name == k) with
          | true => have := eq_of_beq hx; subst this; simp at hk
          | false => rfl
        rw [hnk]
        rfl

/-- Parsing an empty bracket line: the scope pattern matches with the
optional group absent, so the captured group value is the Python None. -/
theorem scope_line_parse_emptyBracket (l : List Char)
    (h : emptyBracketShape l = true) :
    ConfigFile.scope_line_parse l = some none := by
  unfold emptyBracketShape at h
  cases e1 : skipWs l with
  | nil => rw [e1] at h; simp at h
  | cons c r =>
    rw [e1] at h
    simp only [Bool.and_eq_true] at h
    obtain ⟨hc, h2⟩ := h
    cases e2 : skipWs r with
    | nil => rw [e2] at h2; simp at h2
    | cons c2 r2 =>
      rw [e2] at h2
      simp only [Bool.and_eq_true] at h2
      obtain ⟨hc2, ht⟩ := h2
      have hc' : c = '[' := eq_of_beq hc
      have hc2' : c2 = ']' := eq_of_beq hc2
      subst hc'
      subst hc2'
      have hpd : parseDottedName (']' :: r2) = none := rfl
      have hsw : skipWs (']' :: r2) = ']' :: r2 := rfl
      simp [ConfigFile.scope_line_parse, e1, e2, hpd, hsw,
        ConfigFile.scope_close, ht]

/-- Claim C1 (code_bug evaluation): by the spec (and by the module's own
docstring, line 46, and the expected test value var10), c1_line carries a
quoted value whose raw content is everything between the quotes, with the
delimiter = taken literally.  spec_quoted confirms the spec-side detection.
The code disagrees twice: the pattern of has_quoted_value (line 396) uses
the character class [^=] for the quoted content, so the = between the
quotes makes the whole pattern fail and the method returns False; and
get_quoted_value (line 425) evaluates the undefined name quote_val_patterns
and raises NameError for every line with a valid variable name. -/
theorem claim_C1_code_eval :
    spec_quoted c1_line = true ∧
    ConfigFile.has_quoted_value c1_line = false ∧
    ConfigFile.get_quoted_value c1_line = Except.error PyErr.nameError := by
  refine ⟨by decide, by decide, rfl⟩

/-- Claim C2 (code_bug evaluation): the spec says the comment-position
search returns the smallest index at which any configured marker occurs
(position 0 wins when one marker is at 0 and another occurs later).  On the
line #ab//cd with the default markers, the earliest marker position is 0
(the #), but find_line_comment_position returns 3 (the //): the Python test
start == False is satisfied by start = 0, so the position-0 match is
overwritten by the later match. -/
theorem claim_C2_code_eval :
    spec_comment_pos default_markers c2_line 0 = some 0 ∧
    ConfigFile.find_line_comment_position default_markers c2_line 0 = PosResult.pos 3 ∧
    ConfigFile.find_line_comment_position default_markers c2_line 0 ≠ PosResult.pos 0 := by
  refine ⟨by decide, by decide, by decide⟩

/-- Claim C3 (code_bug evaluation): the round-trip property fails for every
string, because get_variable_value cannot return a quoted value at all.  On
c3_line the quoted-value detection succeeds, but line 445 assigns the
method object self.get_quoted_value instead of calling it, and the
escape-handling block (line 455) raises re.error (re.compile of the bare
backslash escape character is an invalid pattern) before any value is
returned.  For strings containing =, even the detection fails (claim C1). -/
theorem claim_C3_code_eval :
    ConfigFile.has_quoted_value c3_line = true ∧
    ConfigFile.get_variable_value c3_line = Except.error PyErr.reError := by
  refine ⟨by decide, rfl⟩

/-- Claim C4 (code_bug evaluation): on c4_line the quoted-value detection
correctly fails and the unquoted branch of get_variable_value computes the
claimed value (quote kept, no comment to strip, whitespace trimmed) — but
the escape-handling block that follows (line 455) raises re.error
(re.compile of the bare backslash escape character is an invalid pattern),
so get_variable_value raises instead of returning the value the claim (and
the expected test value var9) requires. -/
theorem claim_C4_code_eval :
    ConfigFile.has_quoted_value c4_line = false ∧
    ConfigFile.unquoted_extract c4_line = ("\"open").toList ∧
    ConfigFile.get_variable_value c4_line = Except.error PyErr.reError := by
  refine ⟨by decide, by decide, rfl⟩

/-- Claim C5: for a key with no previous entry, recording value a and then
value b yields get_array = [a, b] in insertion order (the second assignment
appends rather than overwrites) and get returns the last-recorded b. -/
theorem claim_C5_record_order (vs : Store) (k : List Char) (a b : PyObj)
    (h : storeMem vs k = false) :
    ConfigFile.get_array (ConfigFile.record (ConfigFile.record vs k a) k b) k = [a, b] ∧
    ConfigFile.get (ConfigFile.record (ConfigFile.record vs k a) k b) k none = some b := by
  have e1 : ConfigFile.record vs k a = vs ++ [(k, [a])] := by
    simp [ConfigFile.record, h]
  have hm : storeMem (vs ++ [(k, [a])]) k = true := by
    rw [storeMem_append_single, h]; simp
  have e2 : ConfigFile.record (vs ++ [(k, [a])]) k b = vs ++ [(k, [a, b])] := by
    simp only [ConfigFile.record, hm, if_true, List.map_append]
    rw [map_keep_of_not_mem vs k b h]
    simp
  have e3 : storeGet (vs ++ [(k, [a, b])]) k = some [a, b] := by
    rw [storeGet_append_of_not_mem vs _ k h]
    simp [storeGet, List.find?]
  rw [e1, e2]
  constructor
  · simp [ConfigFile.get_array, e3]
  · simp [ConfigFile.get, e3]

/-- Witness for claim C5 at the empty store and key x. -/
theorem claim_C5_witness :
    storeMem ([] : Store) kx = false ∧
    (ConfigFile.get_array (ConfigFile.record (ConfigFile.record [] kx valA) kx valB) kx = [valA, valB] ∧
     ConfigFile.get (ConfigFile.record (ConfigFile.record [] kx valA) kx valB) kx none = some valB) :=
  ⟨rfl, claim_C5_record_order [] kx valA valB rfl⟩

/-- Claim C6: preload leaves the value sequence of every key already
present in the store unchanged, and seeds every key absent from the store
with the (wrapped) value the defaults give for it.  The state is quantified
over arbitrary ConfigFile values, so the property holds whether preload is
called before or after load. -/
theorem claim_C6_preload (cf : ConfigFile) (defaults : List (List Char × PreVal))
    (k : List Char) :
    (storeMem cf.values k = true →
      storeGet (ConfigFile.preload cf defaults).values k = storeGet cf.values k) ∧
    (storeMem cf.values k = false → ∀ pv, List.lookup k defaults = some pv →
      storeGet (ConfigFile.preload cf defaults).values k = some (wrapPre pv)) := by
  constructor
  · intro h
    exact preload_fold_frame defaults cf.values k h
  · intro h pv hl
    exact preload_fold_seed defaults cf.values k pv h hl

/-- Witness for claim C6: in cfw the key x already holds [valA] and the key
y is absent; preloading dW keeps x at [valA] and seeds y with [valB]. -/
theorem claim_C6_witness :
    storeGet (ConfigFile.preload cfw dW).values kx = some [valA] ∧
    storeGet (ConfigFile.preload cfw dW).values ky = some [valB] := by
  constructor
  · have h := (claim_C6_preload cfw dW kx).1 (by rfl)
    rw [h]; rfl
  · have h := (claim_C6_preload cfw dW ky).2 (by rfl) (PreVal.scalar valB) (by rfl)
    rw [h]
    rfl

/-- Claim C7 (code_bug evaluation): a ConfigFile constructed with a string
path never gets a backing path, because line 149 of __init__ assigns the
local name file_path instead of self.file_path; load therefore appends the
NoFileGiven error and returns False even though the path names an existing
readable file, contradicting the claim (and test_can_load_file).  Even with
a backing path set, line 249 would raise AttributeError (os.is_file does
not exist) and its un-negated readability test labels readable files
unreadable. -/
theorem claim_C7_code_eval :
    ConfigFile.load (ConfigFile.init (some (("test1.conf").toList))) =
      Except.ok
        ({ ConfigFile.init (some (("test1.conf").toList)) with
            errors := [ConfigFile.noFileMsg] }, false) := rfl

/-- Claim C8 counterexample: the line consisting of an empty bracket pair is
classified as a valid scope declaration, but processing it does not set the
current scope to the root (empty string) prefix used at construction: the
regex optional group is absent, so match.group(1) is None and current_scope
becomes None. -/
theorem claim_C8_counterexample :
    ConfigFile.is_valid_scope_definition (("[]").toList) = true ∧
    (ConfigFile.set_scope (ConfigFile.init none) (("[]").toList)).current_scope ≠
      some [] := by
  constructor
  · rfl
  · intro hcontra
    have h : (ConfigFile.set_scope (ConfigFile.init none) (("[]").toList)).current_scope = none := rfl
    rw [h] at hcontra
    exact Option.noConfusion hcontra

/-- Claim C8 as amended: every line of the empty-bracket shape (optional
surrounding whitespace, an empty bracket pair, an optional trailing
comment) is classified as a valid scope declaration with no segments, and
processing it sets the current_scope field to None (the Python value of the
absent regex group), not to the empty-string root prefix. -/
theorem claim_C8_amended (cf : ConfigFile) (l : List Char)
    (h : emptyBracketShape l = true) :
    ConfigFile.is_valid_scope_definition l = true ∧
    (ConfigFile.set_scope cf l).current_scope = none := by
  have hp := scope_line_parse_emptyBracket l h
  constructor
  · simp [ConfigFile.is_valid_scope_definition, hp]
  · simp [ConfigFile.set_scope, hp]

/-- Witness for the amended claim C8 on a concrete empty-bracket line with
whitespace and a trailing comment. -/
theorem claim_C8_witness :
    emptyBracketShape ((" [ ] # end").toList) = true ∧
    (ConfigFile.set_scope (ConfigFile.init none) ((" [ ] # end").toList)).current_scope = none :=
  ⟨rfl, (claim_C8_amended (ConfigFile.init none) ((" [ ] # end").toList) rfl).2⟩

/-- Claim C9: reset sets loaded to false and empties the error list and the
value store, while leaving every lexical-rule field, the file path and the
current scope unchanged. -/
theorem claim_C9_reset_frame (cf : ConfigFile) :
    (ConfigFile.reset cf).loaded = false ∧
    (ConfigFile.reset cf).errors = [] ∧
    (ConfigFile.reset cf).values = [] ∧
    (ConfigFile.reset cf).line_comment_start = cf.line_comment_start ∧
    (ConfigFile.reset cf).var_val_delimiter = cf.var_val_delimiter ∧
    (ConfigFile.reset cf).scope_delimiter = cf.scope_delimiter ∧
    (ConfigFile.reset cf).quote_char = cf.quote_char ∧
    (ConfigFile.reset cf).escape_char = cf.escape_char ∧
    (ConfigFile.reset cf).scope_char_set = cf.scope_char_set ∧
    (ConfigFile.reset cf).varname_char_set = cf.varname_char_set ∧
    (ConfigFile.reset cf).file_path = cf.file_path ∧
    (ConfigFile.reset cf).current_scope = cf.current_scope :=
  ⟨rfl, rfl, rfl, rfl, rfl, rfl, rfl, rfl, rfl, rfl, rfl, rfl⟩

/-- Claim C10: when the loaded flag is true, load returns success
immediately with the state unchanged (lines 240-242; the state does not
depend on any file content, so the file is not re-read); and whenever load
returns a state whose loaded flag is true, either the flag was already true
before the call or the error list of the returned state is empty (line 270
is guarded by the emptiness check of line 266). -/
theorem claim_C10_load_idempotent (cf : ConfigFile) :
    (cf.loaded = true → ConfigFile.load cf = Except.ok (cf, true)) ∧
    (∀ cf2 b, ConfigFile.load cf = Except.ok (cf2, b) → cf2.loaded = true →
      cf.loaded = true ∨ cf2.errors = []) := by
  constructor
  · intro h
    simp [ConfigFile.load, h]
  · intro cf2 b hld hl2
    cases h : cf.loaded with
    | true => exact Or.inl rfl
    | false =>
      exfalso
      cases e : cf.file_path with
      | none =>
        have hcomp : ConfigFile.load cf =
            Except.ok ({ cf with errors := cf.errors ++ [ConfigFile.noFileMsg] }, false) := by
          simp [ConfigFile.load, h, e]
        rw [hcomp] at hld
        have h1 := Except.ok.inj hld
        have h2 := congrArg Prod.fst h1
        dsimp only at h2
        have h3 : cf2.loaded = cf.loaded := by rw [← h2]
        rw [h3, h] at hl2
        exact Bool.noConfusion hl2
      | some p =>
        have hcomp : ConfigFile.load cf = Except.error PyErr.attributeError := by
          simp [ConfigFile.load, h, e]
        rw [hcomp] at hld
        exact Except.noConfusion hld

/-- Witness for claim C10 at a concrete state whose loaded flag is true:
load returns success immediately with the state unchanged, and the
only-when-errors-empty property is discharged at the same call. -/
theorem claim_C10_witness :
    ConfigFile.load cf_loaded = Except.ok (cf_loaded, true) ∧
    (cf_loaded.loaded = true ∨ cf_loaded.errors = []) :=
  ⟨(claim_C10_load_idempotent cf_loaded).1 rfl,
   (claim_C10_load_idempotent cf_loaded).2 cf_loaded true
     ((claim_C10_load_idempotent cf_loaded).1 rfl) rfl⟩
